import Mathlib

/-!
Verification of pyrax cloud_databases.py (module pyrax.cloud_databases).

The module is a client SDK binding for a cloud database REST API.  Its own
logic is: flavor reference resolution, polymorphic request-body construction,
per-instance database/user operations, an instance-or-id wrapper, and a lazy
flavor accessor.  We embed that logic shallowly: request bodies become a JSON
value type, Python exceptions become an error type threaded through Except,
and the remote service (the generic BaseManager collaborator, which is not
part of this file) is modelled from the spec where its behaviour decides a
claim.
-/

/-- JSON-shaped values, for the request bodies the module builds. -/
inductive JVal where
  | null : JVal
  | str (s : String) : JVal
  | num (n : Int) : JVal
  | arr (xs : List JVal) : JVal
  | obj (fields : List (String × JVal)) : JVal

/-- The exception taxonomy of the module (pyrax.exceptions plus Python
built-ins that the embedded code paths can hit). -/
inductive DbError where
  | notFound : DbError
  | flavorNotFound (msg : String) : DbError
  | invalidVolumeResize (msg : String) : DbError
  | badRequest : DbError
  | pyTypeError : DbError
  | indexError : DbError
deriving DecidableEq

/-- A navigation link of a flavor (an entry of flavor.links). -/
structure Link where
  rel : String
  href : String
deriving DecidableEq

/-- A catalog flavor as returned by the remote flavors API:
CloudDatabaseFlavor populated with id, name, ram and links. -/
structure Flavor where
  id : Int
  name : String
  ram : Int
  links : List Link
deriving DecidableEq

/-- The argument accepted by _get_flavor_ref: an already-built
CloudDatabaseFlavor object, a Python int (id or RAM size), or a name
string. -/
inductive FlavorInput where
  | obj (f : Flavor) : FlavorInput
  | int (n : Int) : FlavorInput
  | str (s : String) : FlavorInput
deriving DecidableEq

/-- Rendering of the input by the %s interpolation in the FlavorNotFound
message (the obj case never reaches that message). -/
def showFlavorInput : FlavorInput → String
  | .obj _ => "<CloudDatabaseFlavor>"
  | .int n => toString n
  | .str s => s

/-- Modelled from the spec: the flavor manager get (get_flavor) is a remote
lookup-by-id against the flavor catalog; it raises NotFound when no flavor
has that id.  BaseManager.get is not part of this file. -/
def get_flavor (catalog : List Flavor) (flavor_id : Int) : Except DbError Flavor :=
  match catalog.find? (fun fl => fl.id == flavor_id) with
  | some fl => .ok fl
  | none => .error .notFound

/-- The first phase of _get_flavor_ref (lines 269-279): a Flavor object is
used directly; an int is looked up by id with NotFound caught and turned
into fall-through; anything else leaves flavor_obj as None. -/
def flavorObjOf (catalog : List Flavor) (flavor : FlavorInput) : Option Flavor :=
  match flavor with
  | .obj f => some f
  | .int n =>
      match get_flavor catalog n with
      | .ok fl => some fl
      | .error _ => none
  | .str _ => none

/-- flav.name == flavor, under Python 2 equality: a name string only ever
equals a string input. -/
def nameMatches (fl : Flavor) (flavor : FlavorInput) : Bool :=
  match flavor with
  | .str s => fl.name == s
  | _ => false

/-- flav.ram == flavor, under Python 2 equality: an int RAM size only ever
equals an int input. -/
def ramMatches (fl : Flavor) (flavor : FlavorInput) : Bool :=
  match flavor with
  | .int n => fl.ram == n
  | _ => false

/-- The href extraction of lines 294-296: the first link whose rel is
"self"; indexing an empty list raises IndexError. -/
def selfHref (f : Flavor) : Except DbError String :=
  match (f.links.filter (fun link => link.rel == "self")).head? with
  | some link => .ok link.href
  | none => .error .indexError

/-- CloudDatabaseClient._get_flavor_ref (lines 268-296): resolve a flavor
object / id / name / RAM size to the canonical self-link href. -/
def _get_flavor_ref (catalog : List Flavor) (flavor : FlavorInput) : Except DbError String :=
  match flavorObjOf catalog flavor with
  | some flavor_obj => selfHref flavor_obj
  | none =>
      match catalog.find? (fun fl => nameMatches fl flavor) with
      | some flavor_obj => selfHref flavor_obj
      | none =>
          match catalog.find? (fun fl => ramMatches fl flavor) with
          | some flavor_obj => selfHref flavor_obj
          | none =>
              .error (.flavorNotFound
                ("Could not determine flavor from \x27" ++ showFlavorInput flavor ++ "\x27."))

/-- One entry of a create_user database_names list: Python accepts either a
bare name string or a Database object. -/
inductive DbNameOrObj where
  | nm (s : String) : DbNameOrObj
  | db (name : String) : DbNameOrObj
deriving DecidableEq

/-- The name a list entry contributes: a string is kept, a Database object
contributes its name attribute (line 88-89). -/
def dbEntryName : DbNameOrObj → String
  | .nm s => s
  | .db name => name

/-- The database_names argument of create_user: Python also accepts a single
scalar, which is wrapped into a one-element list (lines 85-86). -/
inductive DbNamesArg where
  | one (x : DbNameOrObj) : DbNamesArg
  | many (xs : List DbNameOrObj) : DbNamesArg
deriving DecidableEq

/-- if not isinstance(database_names, list): database_names = [database_names] -/
def dbNamesToList : DbNamesArg → List DbNameOrObj
  | .one x => [x]
  | .many xs => xs

/-- Python None-able string rendered into a JSON body. -/
def jStrOpt : Option String → JVal
  | some s => .str s
  | none => .null

/-- CloudDatabaseClient._create_body (lines 299-340): one polymorphic
builder producing the database-creation, user-creation or instance-creation
body, disambiguated by which optional arguments are non-None, in that
precedence.  Iterating database_names = None in the user branch raises a
Python TypeError; the instance branch resolves the flavor and propagates
resolution errors. -/
def _create_body (catalog : List Flavor) (name : String)
    (flavor : Option FlavorInput) (volume : Option Int)
    (databases : Option (List JVal)) (users : Option (List JVal))
    (character_set : Option String) (collate : Option String)
    (password : Option String) (database_names : Option (List String)) :
    Except DbError JVal :=
  match character_set with
  | some cs =>
      .ok (.obj [("databases", .arr [.obj
            [("name", .str name),
             ("character_set", .str cs),
             ("collate", jStrOpt collate)]])])
  | none =>
      match password with
      | some pw =>
          match database_names with
          | some dbns =>
              let db_dicts := dbns.map (fun db => JVal.obj [("name", .str db)])
              .ok (.obj [("users", .arr [.obj
                    [("name", .str name),
                     ("password", .str pw),
                     ("databases", .arr db_dicts)]])])
          | none => .error .pyTypeError
      | none =>
          let flavor := flavor.getD (.int 1)
          match _get_flavor_ref catalog flavor with
          | .error e => .error e
          | .ok flavor_ref =>
              let volume := volume.getD 1
              let databases := databases.getD []
              let users := users.getD []
              .ok (.obj [("instance", .obj
                    [("name", .str name),
                     ("flavorRef", .str flavor_ref),
                     ("volume", .obj [("size", .num volume)]),
                     ("databases", .arr databases),
                     ("users", .arr users)])])

/-- A database of an instance as the remote service holds it. -/
structure DbRec where
  name : String
  character_set : String
  collate : String
deriving DecidableEq

/-- A user of an instance as the remote service holds it. -/
structure UserRec where
  name : String
  password : String
  databases : List String
deriving DecidableEq

/-- The observable state of one remote database instance: its id, its
databases and users (held by the sub-managers scoped to the id), the current
volume size (self.volume["size"]), and the root-user data the remote
returns for the root endpoints. -/
structure InstanceState where
  id : String
  dbs : List DbRec
  usrs : List UserRec
  volumeSize : Int
  rootEnabled : Bool
  rootPassword : String
deriving DecidableEq

/-- Modelled from the spec: the database sub-manager create sends the create
request; the remote rejects a duplicate name with BadRequest and otherwise
adds the database.  BaseManager.create is not part of this file. -/
def manager_create_db (dbs : List DbRec) (name cs co : String) :
    Except DbError (List DbRec) :=
  if dbs.any (fun d => d.name == name) then .error .badRequest
  else .ok (dbs ++ [⟨name, cs, co⟩])

/-- Modelled from the spec: the sub-manager find performs a lookup-by-name,
raising NotFound when nothing matches.  BaseManager.find is not part of
this file. -/
def manager_find_db (dbs : List DbRec) (name : String) : Except DbError DbRec :=
  match dbs.find? (fun d => d.name == name) with
  | some d => .ok d
  | none => .error .notFound

/-- Modelled from the spec: the sub-manager delete is an idempotent remote
delete — deleting a name that does not exist is a silent no-op, never an
error.  BaseManager.delete is not part of this file. -/
def manager_delete_db (dbs : List DbRec) (name : String) : List DbRec :=
  dbs.filter (fun d => !(d.name == name))

/-- Modelled from the spec: user sub-manager create, as manager_create_db. -/
def manager_create_user (usrs : List UserRec) (name pw : String)
    (dbns : List String) : Except DbError (List UserRec) :=
  if usrs.any (fun u => u.name == name) then .error .badRequest
  else .ok (usrs ++ [⟨name, pw, dbns⟩])

/-- Modelled from the spec: user sub-manager find, as manager_find_db. -/
def manager_find_user (usrs : List UserRec) (name : String) :
    Except DbError UserRec :=
  match usrs.find? (fun u => u.name == name) with
  | some u => .ok u
  | none => .error .notFound

/-- Modelled from the spec: user sub-manager delete, idempotent as
manager_delete_db. -/
def manager_delete_user (usrs : List UserRec) (name : String) : List UserRec :=
  usrs.filter (fun u => !(u.name == name))

/-- CloudDatabaseInstance.list_databases (lines 47-49): delegates to the
database sub-manager, returning the remote-reported set. -/
def list_databases (st : InstanceState) : List DbRec :=
  st.dbs

/-- CloudDatabaseInstance.list_users (lines 52-54). -/
def list_users (st : InstanceState) : List UserRec :=
  st.usrs

/-- CloudDatabaseInstance.create_database (lines 57-73): default
character_set and collate, send the create request (whose body the manager
obtains from _create_body with those keyword arguments), then fetch the
result by a follow-up find by name.  Returns the issued request body and
the outcome (new state plus found record). -/
def create_database (catalog : List Flavor) (st : InstanceState) (name : String)
    (character_set : Option String) (collate : Option String) :
    Except DbError JVal × Except DbError (InstanceState × DbRec) :=
  let cs := character_set.getD "utf8"
  let co := collate.getD "utf8_general_ci"
  let body := _create_body catalog name none none none none (some cs) (some co) none none
  match manager_create_db st.dbs name cs co with
  | .error e => (body, .error e)
  | .ok dbs2 =>
      let st2 := { st with dbs := dbs2 }
      (body, (manager_find_db st2.dbs name).map (fun d => (st2, d)))

/-- CloudDatabaseInstance.create_user (lines 76-96): wrap a non-list
argument, normalize Database objects to their names, send the create
request (body via _create_body with password and database_names), then a
follow-up find by name. -/
def create_user (catalog : List Flavor) (st : InstanceState) (name password : String)
    (database_names : DbNamesArg) :
    Except DbError JVal × Except DbError (InstanceState × UserRec) :=
  let names := (dbNamesToList database_names).map dbEntryName
  let body := _create_body catalog name none none none none none none (some password) (some names)
  match manager_create_user st.usrs name password names with
  | .error e => (body, .error e)
  | .ok us2 =>
      let st2 := { st with usrs := us2 }
      (body, (manager_find_user st2.usrs name).map (fun u => (st2, u)))

/-- CloudDatabaseInstance.delete_database (lines 99-105): delegates to the
idempotent sub-manager delete; never raises for a missing name. -/
def delete_database (st : InstanceState) (name : String) :
    Except DbError InstanceState :=
  .ok { st with dbs := manager_delete_db st.dbs name }

/-- CloudDatabaseInstance.delete_user (lines 108-114). -/
def delete_user (st : InstanceState) (name : String) :
    Except DbError InstanceState :=
  .ok { st with usrs := manager_delete_user st.usrs name }

/-- CloudDatabaseInstance.enable_root_user (lines 117-124): posts to the
root endpoint and returns body["user"]["password"], the password the remote
generated. -/
def enable_root_user (st : InstanceState) : String :=
  st.rootPassword

/-- CloudDatabaseInstance.root_user_status (lines 127-130): gets the root
endpoint and returns body["rootEnabled"]. -/
def root_user_status (st : InstanceState) : Bool :=
  st.rootEnabled

/-- CloudDatabaseInstance.resize (lines 140-146): resolve the flavor to its
reference and post the resize action body. -/
def resize (catalog : List Flavor) (_st : InstanceState) (flavor : FlavorInput) :
    Except DbError JVal :=
  match _get_flavor_ref catalog flavor with
  | .error e => .error e
  | .ok flavorRef => .ok (.obj [("resize", .obj [("flavorRef", .str flavorRef)])])

/-- CloudDatabaseInstance.resize_volume (lines 149-156): reject a size not
strictly greater than the current volume size before any request is posted;
otherwise post the volume-resize body.  The first component is the list of
requests actually issued. -/
def resize_volume (st : InstanceState) (size : Int) :
    List JVal × Except DbError Unit :=
  let curr_size := st.volumeSize
  if size ≤ curr_size then
    ([], .error (.invalidVolumeResize
      ("The new volume size must be larger than the current volume size of \x27"
        ++ toString curr_size ++ "\x27.")))
  else
    ([.obj [("resize", .obj [("volume", .obj [("size", .num size)])])]], .ok ())

/-- The value stored in the _flavor attribute slot: a CloudDatabaseFlavor
resource holding the mapping it was constructed from. -/
inductive FlavorAttr where
  | fromDict (info : List (String × JVal)) : FlavorAttr

/-- CloudDatabaseFlavor(self.manager, \x7b\x7d): the empty placeholder. -/
def emptyFlavorAttr : FlavorAttr :=
  .fromDict []

/-- The argument of the flavor setter: a raw mapping or an existing
CloudDatabaseFlavor object. -/
inductive FlavorSetArg where
  | dict (d : List (String × JVal)) : FlavorSetArg
  | flavObj (f : FlavorAttr) : FlavorSetArg

/-- CloudDatabaseInstance._get_flavor (lines 159-164): the slot is the
possibly-unset _flavor attribute; an unset slot (AttributeError) is filled
with an empty placeholder which is also returned.  Result: the returned
value and the slot afterwards. -/
def _get_flavor (slot : Option FlavorAttr) : FlavorAttr × Option FlavorAttr :=
  match slot with
  | some f => (f, some f)
  | none => (emptyFlavorAttr, some emptyFlavorAttr)

/-- CloudDatabaseInstance._set_flavor (lines 166-171): a dict constructs a
new CloudDatabaseFlavor from it; anything else is stored as-is. -/
def _set_flavor (arg : FlavorSetArg) : Option FlavorAttr :=
  match arg with
  | .dict d => some (.fromDict d)
  | .flavObj f => some f

/-- The CloudDatabaseClient environment: the remote flavor catalog behind
the flavor manager and the remote instances behind the instance manager. -/
structure Client where
  catalog : List Flavor
  instances : List (String × InstanceState)
deriving DecidableEq

/-- Modelled from the spec: the instance manager get (self._manager.get)
fetches an instance by identifier, raising NotFound when there is none.
BaseManager.get is not part of this file. -/
def manager_get_instance (c : Client) (ident : String) : Except DbError InstanceState :=
  match c.instances.find? (fun p => p.1 == ident) with
  | some p => .ok p.2
  | none => .error .notFound

/-- The first argument of an instance-scoped client operation: either a
CloudDatabaseInstance object or a raw identifier. -/
inductive InstanceArg where
  | inst (i : InstanceState) : InstanceArg
  | ident (s : String) : InstanceArg

/-- assure_instance (lines 27-33): if the argument is not a
CloudDatabaseInstance, resolve it through the instance manager, then invoke
the wrapped operation on the resulting instance. -/
def assure_instance {α : Type} (c : Client) (fnc : InstanceState → α)
    (arg : InstanceArg) : Except DbError α :=
  match arg with
  | .inst i => .ok (fnc i)
  | .ident s =>
      match manager_get_instance c s with
      | .ok i => .ok (fnc i)
      | .error e => .error e

/-- CloudDatabaseClient.list_databases (lines 197-199). -/
def client_list_databases (c : Client) (arg : InstanceArg) :
    Except DbError (List DbRec) :=
  assure_instance c (fun i => list_databases i) arg

/-- CloudDatabaseClient.create_database (lines 202-207). -/
def client_create_database (c : Client) (arg : InstanceArg) (name : String)
    (character_set : Option String) (collate : Option String) :
    Except DbError (Except DbError JVal × Except DbError (InstanceState × DbRec)) :=
  assure_instance c (fun i => create_database c.catalog i name character_set collate) arg

/-- CloudDatabaseClient.delete_database (lines 210-213). -/
def client_delete_database (c : Client) (arg : InstanceArg) (name : String) :
    Except DbError (Except DbError InstanceState) :=
  assure_instance c (fun i => delete_database i name) arg

/-- CloudDatabaseClient.list_users (lines 216-218). -/
def client_list_users (c : Client) (arg : InstanceArg) :
    Except DbError (List UserRec) :=
  assure_instance c (fun i => list_users i) arg

/-- CloudDatabaseClient.create_user (lines 221-228). -/
def client_create_user (c : Client) (arg : InstanceArg) (name password : String)
    (database_names : DbNamesArg) :
    Except DbError (Except DbError JVal × Except DbError (InstanceState × UserRec)) :=
  assure_instance c (fun i => create_user c.catalog i name password database_names) arg

/-- CloudDatabaseClient.delete_user (lines 231-234). -/
def client_delete_user (c : Client) (arg : InstanceArg) (name : String) :
    Except DbError (Except DbError InstanceState) :=
  assure_instance c (fun i => delete_user i name) arg

/-- CloudDatabaseClient.enable_root_user (lines 237-243). -/
def client_enable_root_user (c : Client) (arg : InstanceArg) :
    Except DbError String :=
  assure_instance c (fun i => enable_root_user i) arg

/-- CloudDatabaseClient.root_user_status (lines 246-249). -/
def client_root_user_status (c : Client) (arg : InstanceArg) :
    Except DbError Bool :=
  assure_instance c (fun i => root_user_status i) arg

/-- CloudDatabaseClient.resize (lines 252-255). -/
def client_resize (c : Client) (arg : InstanceArg) (flavor : FlavorInput) :
    Except DbError (Except DbError JVal) :=
  assure_instance c (fun i => resize c.catalog i flavor) arg

/-! ## Theorems -/

/-- An int input never satisfies the name comparison (Python 2: a string
attribute never equals an int). -/
lemma find_nameMatches_int_eq_none (catalog : List Flavor) (n : Int) :
    catalog.find? (fun fl => nameMatches fl (.int n)) = none := by
  rw [List.find?_eq_none]
  intro fl _
  simp [nameMatches]

/-- A string input never satisfies the RAM comparison. -/
lemma find_ramMatches_str_eq_none (catalog : List Flavor) (s : String) :
    catalog.find? (fun fl => ramMatches fl (.str s)) = none := by
  rw [List.find?_eq_none]
  intro fl _
  simp [ramMatches]

/-- C1: flavor reference resolution follows the strict priority order: a
CloudDatabaseFlavor object is used directly; an int first attempts a
lookup-by-id, and on not-found falls through without failing to the catalog
search, where (the int matching no name) the first exact RAM match is taken
or the not-found error is raised; a string input with an exact name match
resolves to the first such match regardless of any RAM data, so a name
match takes priority over a RAM-size match. -/
theorem C1_flavor_resolution_priority (catalog : List Flavor) :
    (∀ f, _get_flavor_ref catalog (.obj f) = selfHref f) ∧
    (∀ n fl, get_flavor catalog n = .ok fl →
      _get_flavor_ref catalog (.int n) = selfHref fl) ∧
    (∀ n, get_flavor catalog n = .error .notFound →
      _get_flavor_ref catalog (.int n) =
        match catalog.find? (fun fl => ramMatches fl (.int n)) with
        | some fl => selfHref fl
        | none => .error (.flavorNotFound
            ("Could not determine flavor from \x27" ++ toString n ++ "\x27."))) ∧
    (∀ s fl, catalog.find? (fun fl2 => nameMatches fl2 (.str s)) = some fl →
      _get_flavor_ref catalog (.str s) = selfHref fl) := by
  refine ⟨fun f => rfl, fun n fl h => ?_, fun n h => ?_, fun s fl h => ?_⟩
  · simp [_get_flavor_ref, flavorObjOf, h]
  · simp [_get_flavor_ref, flavorObjOf, h, find_nameMatches_int_eq_none,
      showFlavorInput]
  · simp [_get_flavor_ref, flavorObjOf, h]

/-- C1 witness: on a concrete two-flavor catalog, an int that is a valid id
resolves by id, an int that is only a RAM size resolves by RAM, and a name
resolves by name. -/
theorem C1_flavor_resolution_priority_witness :
    _get_flavor_ref
      [⟨1, "small", 512, [⟨"self", "/f/1"⟩]⟩, ⟨2, "big", 1024, [⟨"self", "/f/2"⟩]⟩]
      (.int 1024) = .ok "/f/2" := by
  have h := (C1_flavor_resolution_priority
      [⟨1, "small", 512, [⟨"self", "/f/1"⟩]⟩, ⟨2, "big", 1024, [⟨"self", "/f/2"⟩]⟩]).2.2.1
      1024 (by rfl)
  simpa using h

/-- C2: an input that resolves to no flavor object (neither identity nor
id), matches no name, and matches no RAM size, makes _get_flavor_ref fail
with exactly the FlavorNotFound error whose message interpolates the
original input; no reference is returned and no other error is raised on
this path. -/
theorem C2_flavor_not_found (catalog : List Flavor) (flavor : FlavorInput)
    (hobj : flavorObjOf catalog flavor = none)
    (hname : catalog.find? (fun fl => nameMatches fl flavor) = none)
    (hram : catalog.find? (fun fl => ramMatches fl flavor) = none) :
    _get_flavor_ref catalog flavor =
      .error (.flavorNotFound
        ("Could not determine flavor from \x27" ++ showFlavorInput flavor ++ "\x27.")) := by
  simp [_get_flavor_ref, hobj, hname, hram]

/-- C2 witness: 99 is neither an id, nor a name, nor a RAM size of the
concrete catalog, and resolution fails with the message carrying 99. -/
theorem C2_flavor_not_found_witness :
    _get_flavor_ref
      [⟨1, "small", 512, [⟨"self", "/f/1"⟩]⟩, ⟨2, "big", 1024, [⟨"self", "/f/2"⟩]⟩]
      (.int 99) =
      .error (.flavorNotFound "Could not determine flavor from \x2799\x27.") := by
  have h := C2_flavor_not_found
      [⟨1, "small", 512, [⟨"self", "/f/1"⟩]⟩, ⟨2, "big", 1024, [⟨"self", "/f/2"⟩]⟩]
      (.int 99) (by rfl) (by rfl) (by rfl)
  simpa [showFlavorInput] using h

/-- C3: for any instance state and any name present in neither collection,
delete_database and delete_user succeed silently; nothing at all is done to
the state and no error is raised. -/
theorem C3_delete_missing_is_silent_noop (st : InstanceState) (name : String)
    (hdb : ∀ d ∈ st.dbs, d.name ≠ name) (hus : ∀ u ∈ st.usrs, u.name ≠ name) :
    delete_database st name = .ok st ∧ delete_user st name = .ok st := by
  have h1 : manager_delete_db st.dbs name = st.dbs := by
    unfold manager_delete_db
    apply List.filter_eq_self.mpr
    intro d hd
    simpa using hdb d hd
  have h2 : manager_delete_user st.usrs name = st.usrs := by
    unfold manager_delete_user
    apply List.filter_eq_self.mpr
    intro u hu
    simpa using hus u hu
  constructor
  · simp [delete_database, h1]
  · simp [delete_user, h2]

/-- C3 witness: deleting the missing name on a concrete instance raises
nothing and changes nothing. -/
theorem C3_delete_missing_is_silent_noop_witness :
    delete_database ⟨"i1", [⟨"db1", "utf8", "utf8_general_ci"⟩], [], 2, false, "pw"⟩
        "missing" =
      .ok ⟨"i1", [⟨"db1", "utf8", "utf8_general_ci"⟩], [], 2, false, "pw"⟩ := by
  have h := C3_delete_missing_is_silent_noop
      ⟨"i1", [⟨"db1", "utf8", "utf8_general_ci"⟩], [], 2, false, "pw"⟩ "missing"
      (by intro d hd; simp at hd; subst hd; decide) (by intro u hu; simp at hu)
  exact h.1

/-- C4: resize_volume raises InvalidVolumeResize, and issues no request at
all, exactly when the requested size is not strictly greater than the
current volume size; when it is strictly greater, the single request
\x7b"resize": \x7b"volume": \x7b"size": size\x7d\x7d\x7d is issued and no
error is raised at this layer. -/
theorem C4_resize_volume_guard (st : InstanceState) (size : Int) :
    (size ≤ st.volumeSize →
      resize_volume st size =
        ([], .error (.invalidVolumeResize
          ("The new volume size must be larger than the current volume size of \x27"
            ++ toString st.volumeSize ++ "\x27.")))) ∧
    (st.volumeSize < size →
      resize_volume st size =
        ([.obj [("resize", .obj [("volume", .obj [("size", .num size)])])]],
         .ok ())) := by
  constructor
  · intro h
    simp [resize_volume, h]
  · intro h
    simp [resize_volume, not_le.mpr h]

/-- C4 witness (the spec scenario): with current volume size 2, resizing to
2 raises and issues nothing; resizing to 5 issues exactly the volume-resize
body. -/
theorem C4_resize_volume_guard_witness :
    resize_volume ⟨"i1", [], [], 2, false, "pw"⟩ 2 =
      ([], .error (.invalidVolumeResize
        "The new volume size must be larger than the current volume size of \x272\x27.")) ∧
    resize_volume ⟨"i1", [], [], 2, false, "pw"⟩ 5 =
      ([.obj [("resize", .obj [("volume", .obj [("size", .num 5)])])]], .ok ()) := by
  constructor
  · have h := (C4_resize_volume_guard ⟨"i1", [], [], 2, false, "pw"⟩ 2).1 (by decide)
    simpa using h
  · have h := (C4_resize_volume_guard ⟨"i1", [], [], 2, false, "pw"⟩ 5).2 (by decide)
    simpa using h

/-- find? skips a prefix in which nothing matches. -/
lemma find?_append_left_none {α : Type} (p : α → Bool) (l1 l2 : List α)
    (h : l1.find? p = none) : (l1 ++ l2).find? p = l2.find? p := by
  induction l1 with
  | nil => rfl
  | cons a l ih =>
      rw [List.find?_cons] at h
      cases hp : p a with
      | true => simp [hp] at h
      | false =>
          rw [hp] at h
          simp [List.find?_cons, hp, ih h]

/-- C5: create_database with character_set or collate omitted issues the
database-creation body with character_set defaulted to "utf8" and collate
to "utf8_general_ci", and the returned record is the one a follow-up
lookup-by-name (find) retrieves from the post-create state. -/
theorem C5_create_database_defaults (catalog : List Flavor) (st : InstanceState)
    (name : String) (character_set collate : Option String)
    (hfresh : ∀ d ∈ st.dbs, d.name ≠ name) :
    ∃ st2 rec,
      create_database catalog st name character_set collate =
        (.ok (.obj [("databases", .arr [.obj
              [("name", .str name),
               ("character_set", .str (character_set.getD "utf8")),
               ("collate", .str (collate.getD "utf8_general_ci"))]])]),
         .ok (st2, rec)) ∧
      manager_find_db st2.dbs name = .ok rec ∧
      rec.character_set = character_set.getD "utf8" ∧
      rec.collate = collate.getD "utf8_general_ci" := by
  have hany : st.dbs.any (fun d => d.name == name) = false := by
    rw [List.any_eq_false]
    intro d hd
    simpa using hfresh d hd
  have hnone : st.dbs.find? (fun d => d.name == name) = none := by
    rw [List.find?_eq_none]
    intro d hd
    simpa using hfresh d hd
  refine ⟨{st with dbs := st.dbs ++
      [⟨name, character_set.getD "utf8", collate.getD "utf8_general_ci"⟩]},
    ⟨name, character_set.getD "utf8", collate.getD "utf8_general_ci"⟩, ?_, ?_, rfl, rfl⟩
  · simp [create_database, _create_body, jStrOpt, manager_create_db, hany,
      manager_find_db, find?_append_left_none _ _ _ hnone, List.find?_cons,
      Except.map]
  · simp [manager_find_db, find?_append_left_none _ _ _ hnone, List.find?_cons]

/-- C5 witness: on a concrete instance with no databases, creating "mydb"
with both options omitted issues the body with the utf8 defaults and
returns the record that find retrieves. -/
theorem C5_create_database_defaults_witness :
    ∃ st2 rec,
      create_database [] ⟨"i1", [], [], 2, false, "pw"⟩ "mydb" none none =
        (.ok (.obj [("databases", .arr [.obj
              [("name", .str "mydb"),
               ("character_set", .str "utf8"),
               ("collate", .str "utf8_general_ci")]])]),
         .ok (st2, rec)) ∧
      manager_find_db st2.dbs "mydb" = .ok rec ∧
      rec.character_set = "utf8" ∧
      rec.collate = "utf8_general_ci" := by
  have h := C5_create_database_defaults [] ⟨"i1", [], [], 2, false, "pw"⟩ "mydb"
      none none (by intro d hd; simp at hd)
  simpa using h

/-- C6: create_user on a list mixing Database objects and bare name strings
normalizes every entry to its plain name before the request is built, and
the issued user-creation body is exactly
\x7b"users": [\x7b"name", "password", "databases": [\x7b"name": db\x7d ...]\x7d]\x7d
over those normalized names. -/
theorem C6_create_user_normalizes_database_names (catalog : List Flavor)
    (st : InstanceState) (name password : String) (dbs : List DbNameOrObj) :
    (create_user catalog st name password (.many dbs)).1 =
      .ok (.obj [("users", .arr [.obj
            [("name", .str name),
             ("password", .str password),
             ("databases", .arr ((dbs.map dbEntryName).map
                (fun db => JVal.obj [("name", .str db)])))]])]) := by
  unfold create_user
  simp only [dbNamesToList]
  cases h : manager_create_user st.usrs name password (dbs.map dbEntryName) with
  | error e => simp [h, _create_body, Function.comp]
  | ok us2 => simp [h, _create_body, Function.comp]

/-- C7: with character_set and password both None, and every other optional
argument omitted, _create_body defaults the flavor to 1, resolves it to its
reference, defaults the volume size to 1 and databases/users to empty
lists, and assembles the instance-creation body. -/
theorem C7_instance_body_defaults (catalog : List Flavor) (name : String)
    (ref : String) (h : _get_flavor_ref catalog (.int 1) = .ok ref) :
    _create_body catalog name none none none none none none none none =
      .ok (.obj [("instance", .obj
            [("name", .str name),
             ("flavorRef", .str ref),
             ("volume", .obj [("size", .num 1)]),
             ("databases", .arr []),
             ("users", .arr [])])]) := by
  simp [_create_body, h]

/-- C7 witness: on a concrete catalog in which flavor id 1 exists,
the all-defaults instance body carries its reference, volume size 1 and
empty lists. -/
theorem C7_instance_body_defaults_witness :
    _create_body [⟨1, "small", 512, [⟨"self", "/f/1"⟩]⟩] "inst1"
        none none none none none none none none =
      .ok (.obj [("instance", .obj
            [("name", .str "inst1"),
             ("flavorRef", .str "/f/1"),
             ("volume", .obj [("size", .num 1)]),
             ("databases", .arr []),
             ("users", .arr [])])]) := by
  exact C7_instance_body_defaults [⟨1, "small", 512, [⟨"self", "/f/1"⟩]⟩]
    "inst1" "/f/1" (by rfl)

/-- C10: when character_set and password are both non-None, _create_body
deterministically takes the character_set branch: the result is the
database-creation body, identical to the call with password and
database_names absent — those two arguments are ignored entirely. -/
theorem C10_character_set_branch_wins (catalog : List Flavor) (name : String)
    (flavor : Option FlavorInput) (volume : Option Int)
    (databases : Option (List JVal)) (users : Option (List JVal))
    (cs : String) (collate : Option String) (pw : String)
    (database_names : Option (List String)) :
    _create_body catalog name flavor volume databases users
        (some cs) collate (some pw) database_names =
      _create_body catalog name flavor volume databases users
        (some cs) collate none none ∧
    _create_body catalog name flavor volume databases users
        (some cs) collate (some pw) database_names =
      .ok (.obj [("databases", .arr [.obj
            [("name", .str name),
             ("character_set", .str cs),
             ("collate", jStrOpt collate)]])]) :=
  ⟨rfl, rfl⟩

/-- C8: every instance-scoped client operation accepts either an Instance
object or a raw identifier; an Instance object is passed straight to the
corresponding Instance operation, and an identifier is first resolved
through the instance manager and the same Instance operation is then
invoked on the result — uniformly across list/create/delete database,
list/create/delete user, enable root user, root user status and resize. -/
theorem C8_instance_or_id_uniform (c : Client) :
    (∀ i,
      client_list_databases c (.inst i) = .ok (list_databases i) ∧
      client_list_users c (.inst i) = .ok (list_users i) ∧
      (∀ name cs co, client_create_database c (.inst i) name cs co =
        .ok (create_database c.catalog i name cs co)) ∧
      (∀ name pw dbns, client_create_user c (.inst i) name pw dbns =
        .ok (create_user c.catalog i name pw dbns)) ∧
      (∀ name, client_delete_database c (.inst i) name =
        .ok (delete_database i name)) ∧
      (∀ name, client_delete_user c (.inst i) name =
        .ok (delete_user i name)) ∧
      client_enable_root_user c (.inst i) = .ok (enable_root_user i) ∧
      client_root_user_status c (.inst i) = .ok (root_user_status i) ∧
      (∀ fl, client_resize c (.inst i) fl = .ok (resize c.catalog i fl))) ∧
    (∀ s i, manager_get_instance c s = .ok i →
      client_list_databases c (.ident s) = .ok (list_databases i) ∧
      client_list_users c (.ident s) = .ok (list_users i) ∧
      (∀ name cs co, client_create_database c (.ident s) name cs co =
        .ok (create_database c.catalog i name cs co)) ∧
      (∀ name pw dbns, client_create_user c (.ident s) name pw dbns =
        .ok (create_user c.catalog i name pw dbns)) ∧
      (∀ name, client_delete_database c (.ident s) name =
        .ok (delete_database i name)) ∧
      (∀ name, client_delete_user c (.ident s) name =
        .ok (delete_user i name)) ∧
      client_enable_root_user c (.ident s) = .ok (enable_root_user i) ∧
      client_root_user_status c (.ident s) = .ok (root_user_status i) ∧
      (∀ fl, client_resize c (.ident s) fl = .ok (resize c.catalog i fl))) := by
  constructor
  · intro i
    exact ⟨rfl, rfl, fun _ _ _ => rfl, fun _ _ _ => rfl, fun _ => rfl,
      fun _ => rfl, rfl, rfl, fun _ => rfl⟩
  · intro s i h
    refine ⟨?_, ?_, fun name cs co => ?_, fun name pw dbns => ?_,
      fun name => ?_, fun name => ?_, ?_, ?_, fun fl => ?_⟩
    all_goals
      simp [client_list_databases, client_list_users, client_create_database,
        client_create_user, client_delete_database, client_delete_user,
        client_enable_root_user, client_root_user_status, client_resize,
        assure_instance, h]

/-- C8 witness: on a concrete client holding one instance under identifier
"i1", the identifier form of root_user_status resolves to that instance and
returns its status. -/
theorem C8_instance_or_id_uniform_witness :
    client_root_user_status
      ⟨[], [("i1", ⟨"i1", [], [], 2, true, "pw"⟩)]⟩ (.ident "i1") = .ok true := by
  have h := (C8_instance_or_id_uniform
      ⟨[], [("i1", ⟨"i1", [], [], 2, true, "pw"⟩)]⟩).2 "i1"
      ⟨"i1", [], [], 2, true, "pw"⟩ (by rfl)
  exact h.2.2.2.2.2.2.2.1

/-- C9: reading the flavor attribute of an instance whose slot was never
set materializes, returns and stores the empty Flavor placeholder, and any
further read returns the very same stored value; setting the attribute with
a raw mapping stores a freshly constructed Flavor holding that mapping,
while setting it with an existing Flavor object stores that object
directly. -/
theorem C9_flavor_accessor (slot : Option FlavorAttr) :
    _get_flavor none = (emptyFlavorAttr, some emptyFlavorAttr) ∧
    (∀ r slot2, _get_flavor slot = (r, slot2) → _get_flavor slot2 = (r, slot2)) ∧
    (∀ d, _set_flavor (.dict d) = some (.fromDict d)) ∧
    (∀ f, _set_flavor (.flavObj f) = some f) := by
  refine ⟨rfl, ?_, fun d => rfl, fun f => rfl⟩
  intro r slot2 h
  cases slot with
  | some f =>
      simp [_get_flavor] at h
      obtain ⟨h1, h2⟩ := h
      subst h1
      subst h2
      rfl
  | none =>
      simp [_get_flavor, emptyFlavorAttr] at h
      obtain ⟨h1, h2⟩ := h
      subst h1
      subst h2
      rfl

/-- C9 witness: starting from an unset slot, the first read yields the
empty placeholder and a second read through the stored slot yields the same
pair again. -/
theorem C9_flavor_accessor_witness :
    _get_flavor (some emptyFlavorAttr) = (emptyFlavorAttr, some emptyFlavorAttr) := by
  exact (C9_flavor_accessor none).2.1 emptyFlavorAttr (some emptyFlavorAttr) rfl
